import Mathlib

/-!
Verification development for `obit_scraper.py`.

Shallow embedding of the two core functions of the source,
`fetch_obit_content` and `scrape_rss_feed`, together with the pieces of
their library collaborators whose behaviour the functions depend on:
BeautifulSoup's tree search (`find_all` / `find` / `get_text` / `str`)
acting on an explicit parsed-DOM value, Python string primitives
(`strip`, `lower`, slicing, substring membership), and
`xml.etree.ElementTree`'s text escaping on `tree.write`.

The HTTP fetch is external; it is passed in as an oracle
`fetch : String → FetchResult` that returns either a failure
(`requests.RequestException`) or a page, where a page carries both its
raw text (used by the challenge check) and its parsed DOM (the
BeautifulSoup parse of that text, used by block extraction).
-/

set_option autoImplicit false

namespace ObitScraper

/-! ## Python string primitives -/

/-- Python `str.strip()`: remove leading and trailing whitespace. -/
def pyStrip (s : String) : String :=
  ⟨((s.data.dropWhile Char.isWhitespace).reverse.dropWhile Char.isWhitespace).reverse⟩

/-- Python `needle in hay` on strings, over explicit character lists. -/
def pyContains (hay needle : List Char) : Bool :=
  match hay with
  | [] => needle.isEmpty
  | _ :: t => needle.isPrefixOf hay || pyContains t needle

/-- Python `s[:500].lower()`, as used on `resp.text` at line 30 of the source. -/
def sampleHtml (s : String) : List Char :=
  (s.data.take 500).map Char.toLower

/-- The anti-bot challenge check of lines 30-34: does the lowercased
first-500-character sample contain the fixed phrase? -/
def blockedCheck (text : String) : Bool :=
  pyContains (sampleHtml text) "are you human".data

/-! ## The DOM model (BeautifulSoup parse result) -/

/-- A node of the parsed HTML tree: an element with a tag, an attribute
list and children, or a bare text node. -/
inductive HtmlNode where
  | elem (tag : String) (attrs : List (String × String)) (children : List HtmlNode)
  | text (s : String)
deriving Repr

/-- Children of a node (text nodes have none). -/
def HtmlNode.children : HtmlNode → List HtmlNode
  | .elem _ _ c => c
  | .text _ => []

/-- BeautifulSoup `tag.get(name)`: the attribute value, if present
(first occurrence wins, as in html.parser). Text nodes have no attributes. -/
def HtmlNode.getAttr (n : HtmlNode) (name : String) : Option String :=
  match n with
  | .elem _ attrs _ => attrs.lookup name
  | .text _ => none

/-- Does this node carry the given tag name? -/
def HtmlNode.isTag (n : HtmlNode) (t : String) : Bool :=
  match n with
  | .elem tag _ _ => tag == t
  | .text _ => false

mutual

/-- BeautifulSoup `find_all` restricted to one node: the node itself if
it matches, then all matching descendants, in document (pre-)order. -/
def findAllNode (p : HtmlNode → Bool) : HtmlNode → List HtmlNode
  | .text s => if p (.text s) then [.text s] else []
  | .elem t a c =>
    (if p (.elem t a c) then [.elem t a c] else []) ++ findAllList p c

/-- BeautifulSoup `soup.find_all(...)` over a forest, in document order. -/
def findAllList (p : HtmlNode → Bool) : List HtmlNode → List HtmlNode
  | [] => []
  | n :: rest => findAllNode p n ++ findAllList p rest

end

mutual

/-- First matching node of a subtree rooted at a node, the node itself
included, in document order. -/
def findFirstNode (p : HtmlNode → Bool) : HtmlNode → Option HtmlNode
  | .text s => if p (.text s) then some (.text s) else none
  | .elem t a c =>
    if p (.elem t a c) then some (.elem t a c) else findFirstList p c

/-- BeautifulSoup `tag.find(...)` searches the descendants of `tag`;
this is the forest version applied to `tag.children`. -/
def findFirstList (p : HtmlNode → Bool) : List HtmlNode → Option HtmlNode
  | [] => none
  | n :: rest =>
    match findFirstNode p n with
    | some m => some m
    | none => findFirstList p rest

end

mutual

/-- All text-node strings below a node, in document order. -/
def textsNode : HtmlNode → List String
  | .text s => [s]
  | .elem _ _ c => textsList c

/-- Forest version of `textsNode`. -/
def textsList : List HtmlNode → List String
  | [] => []
  | n :: rest => textsNode n ++ textsList rest

end

/-- BeautifulSoup `tag.get_text(strip=True)`: each descendant string is
stripped, whitespace-only strings are dropped, and the rest are joined. -/
def getTextStrip (n : HtmlNode) : String :=
  String.join (((textsNode n).map pyStrip).filter (fun s => s ≠ ""))

/-- Escape of the characters ampersand, less-than and greater-than, as
performed both by BeautifulSoup's minimal output formatter on strings and
by ElementTree's text escaping on `tree.write`. -/
def escapeAmpLtGt (s : String) : String :=
  String.join (s.data.map (fun c =>
    if c = '&' then "&amp;"
    else if c = '<' then "&lt;"
    else if c = '>' then "&gt;"
    else String.singleton c))

/-- Render an attribute list as it appears inside a start tag. -/
def renderAttrs (attrs : List (String × String)) : String :=
  String.join (attrs.map (fun kv => " " ++ kv.1 ++ "=\"" ++ kv.2 ++ "\""))

mutual

/-- BeautifulSoup `str(tag)`: serialize a node back to markup. -/
def renderNode : HtmlNode → String
  | .text s => escapeAmpLtGt s
  | .elem t a c =>
    if c.isEmpty && (t == "img" || t == "br" || t == "hr") then
      "<" ++ t ++ renderAttrs a ++ "/>"
    else
      "<" ++ t ++ renderAttrs a ++ ">" ++ renderList c ++ "</" ++ t ++ ">"

/-- Forest version of `renderNode`. -/
def renderList : List HtmlNode → String
  | [] => ""
  | n :: rest => renderNode n ++ renderList rest

end

/-! ## The Content Extractor (`fetch_obit_content`, lines 9-62) -/

/-- The `find_all('div', attrs={'data-blog-component': True})` predicate
of line 39: a `div` element carrying the marker attribute. -/
def isMarkerDiv (n : HtmlNode) : Bool :=
  n.isTag "div" && (n.getAttr "data-blog-component").isSome

/-- One iteration of the loop of lines 43-60: dispatch on the marker
value and produce the block string, if any. -/
def blockOf (div : HtmlNode) : Option String :=
  let compType := (div.getAttr "data-blog-component").getD "unknown"
  if compType = "subtitle" then
    match findFirstList (fun n => n.isTag "h3") div.children with
    | some h3 => some ("<h3>" ++ getTextStrip h3 ++ "</h3>")
    | none => none
  else if compType = "image" then
    match findFirstList (fun n => n.isTag "img") div.children with
    | some img =>
      match img.getAttr "src" with
      | some src =>
        if src = "" then none
        else some ("<img src=\"" ++ src ++ "\" alt=\"obit image\" />")
      | none => none
    | none => none
  else if compType = "text" then
    match findFirstList
        (fun n => n.isTag "div" && n.getAttr "data-blog-inner" == some "text")
        div.children with
    | some td => some (renderNode td)
    | none => none
  else none

/-- The `combined_html` list of lines 42-60: blocks of the recognized
marker divs, in document order. -/
def extractBlocks (dom : List HtmlNode) : List String :=
  (findAllList isMarkerDiv dom).filterMap blockOf

/-- Result of the page-fetch collaborator: a `requests.RequestException`,
or a response whose body is `text` and whose BeautifulSoup parse is `dom`. -/
inductive FetchResult where
  | failed
  | page (text : String) (dom : List HtmlNode)

/-- The function `fetch_obit_content` of lines 9-62, given the already
performed fetch. Python returns `None` on the challenge (here `none`),
the empty string on a fetch error, and the newline-joined blocks
otherwise (here `some`). -/
def fetch_obit_content : FetchResult → Option String
  | .failed => some ""
  | .page text dom =>
    if blockedCheck text then none
    else some (String.intercalate "\n" (extractBlocks dom))

/-! ## The Feed Rewriter (`scrape_rss_feed`, lines 64-128) -/

/-- One `<item>` of the feed. An ElementTree child element is modelled by
an outer `Option` (element present?) whose payload is the element's
`.text`, itself an `Option` because `<link></link>` has `.text = None`.
`extra` stands for all other child elements of the item, which the
rewriter never touches. -/
structure FeedItem where
  link : Option (Option String)
  title : Option (Option String)
  description : Option (Option String)
  extra : List (String × String)
deriving Repr, DecidableEq

/-- The `<channel>` element: feed-level metadata plus the item list, in
document order. -/
structure Channel where
  meta : List (String × String)
  items : List FeedItem
deriving Repr, DecidableEq

/-- The state of the input path before any item processing: the file may
be missing (line 77), unparsable (line 84), or parse to a root whose
`channel` child may be absent (line 89). -/
inductive FeedInput where
  | fileMissing
  | malformed
  | doc (channel : Option Channel)

/-- A Python exception escaping the per-item loop. `attributeError` is
`'NoneType' object has no attribute 'strip'` from `link_elem.text.strip()`
(line 102) or `title_elem.text.strip()` (line 104). -/
inductive PyError where
  | attributeError
deriving Repr, DecidableEq

/-- Outcome of the per-item loop: the item list after mutation, the URLs
fetched in order, the number of `time.sleep` calls, and whether the loop
was halted by the challenge (`break` at line 113). -/
structure LoopResult where
  items : List FeedItem
  fetched : List String
  sleeps : Nat
  halted : Bool
deriving Repr, DecidableEq

/-- The CDATA wrapper of line 120: `f"<![CDATA[\n{obit_html}\n]]>"`
stored as the literal text of the description element. -/
def cdataText (obitHtml : String) : String :=
  "<![CDATA[\n" ++ obitHtml ++ "\n]]>"

/-- Lines 116-120: find or create the `description` element and set its
text to the CDATA-wrapped fragment. -/
def updateDescription (item : FeedItem) (obitHtml : String) : FeedItem :=
  { item with description := some (some (cdataText obitHtml)) }

/-- Does reading the title at line 104 raise? It does exactly when the
`title` element is present but its text is `None`. -/
def titleRaises : Option (Option String) → Bool
  | some none => true
  | _ => false

/-- The per-item loop of lines 96-124, item by item in document order:
skip an item with no `link` element; raise if the `link` (or `title`)
element is present with `None` text; fetch the stripped URL; on the
challenge (`None` result) `break`, leaving the item and all later items
untouched; otherwise update the description and sleep before the next
item. -/
def processItems (fetch : String → FetchResult) :
    List FeedItem → Except PyError LoopResult
  | [] => .ok ⟨[], [], 0, false⟩
  | item :: rest =>
    match item.link with
    | none =>
      match processItems fetch rest with
      | .error e => .error e
      | .ok r => .ok ⟨item :: r.items, r.fetched, r.sleeps, r.halted⟩
    | some none => .error .attributeError
    | some (some rawLink) =>
      if titleRaises item.title then .error .attributeError
      else
        let url := pyStrip rawLink
        match fetch_obit_content (fetch url) with
        | none => .ok ⟨item :: rest, [url], 0, true⟩
        | some obitHtml =>
          match processItems fetch rest with
          | .error e => .error e
          | .ok r =>
            .ok ⟨updateDescription item obitHtml :: r.items,
                 url :: r.fetched, r.sleeps + 1, r.halted⟩

/-- Observable outcome of one run of `scrape_rss_feed`: one of the three
distinct precondition failures reported at lines 78, 85 and 90 (each
returns before the loop, so no output file is written and no fetch is
performed), an exception escaping the loop (no output written), or a
written output document together with the run's fetch and sleep trace. -/
inductive ScrapeOutcome where
  | errNoFile
  | errParse
  | errNoChannel
  | raised (e : PyError)
  | written (out : Channel) (fetched : List String) (sleeps : Nat) (halted : Bool)
deriving Repr, DecidableEq

/-- The function `scrape_rss_feed` of lines 64-128: precondition checks,
the per-item loop, then `tree.write` of the mutated document (also after
an early `break`). -/
def scrape_rss_feed (fetch : String → FetchResult) : FeedInput → ScrapeOutcome
  | .fileMissing => .errNoFile
  | .malformed => .errParse
  | .doc none => .errNoChannel
  | .doc (some ch) =>
    match processItems fetch ch.items with
    | .error e => .raised e
    | .ok r => .written ⟨ch.meta, r.items⟩ r.fetched r.sleeps r.halted

/-- Whether a run produced an output file. -/
def ScrapeOutcome.isWritten : ScrapeOutcome → Bool
  | .written _ _ _ _ => true
  | _ => false

/-- The serialized form of a description element's text in the output
file: ElementTree escapes ampersand, less-than and greater-than in text
content on `tree.write`. -/
def serializedDescText (it : FeedItem) : Option (Option String) :=
  it.description.map (fun t => t.map escapeAmpLtGt)

/-! ## Concrete inputs used by witnesses and counterexamples -/

/-- The markup of the spec's concrete extraction scenario. -/
def c3markup : String :=
  "<div data-blog-component=\"subtitle\"><h3>Jane Doe</h3></div><div data-blog-component=\"image\"><img src=\"http://x/a.jpg\"></div>"

/-- The BeautifulSoup parse of `c3markup`: two sibling marker divs, the
first holding an `h3` with the text, the second holding a void `img`. -/
def c3dom : List HtmlNode :=
  [ .elem "div" [("data-blog-component", "subtitle")]
      [ .elem "h3" [] [ .text "Jane Doe" ] ],
    .elem "div" [("data-blog-component", "image")]
      [ .elem "img" [("src", "http://x/a.jpg")] [] ] ]

/-- A feed item with a link and no other children. -/
def lastItem : FeedItem :=
  { link := some (some "http://a"), title := none, description := none, extra := [] }

/-- A fetch oracle whose every response is an empty page with no blocks. -/
def emptyPageFetch : String → FetchResult := fun _ => .page "" []

/-! ## Theorems for the claims -/

/-- Claim C2: a fetched page whose first 500 characters contain the
phrase "are you human" case-insensitively makes `fetch_obit_content`
return the blocked signal (`none`), whatever the parsed DOM holds; the
check precedes extraction, so the result does not depend on the DOM. -/
theorem challenge_phrase_blocks (text : String) (dom : List HtmlNode)
    (h : blockedCheck text = true) :
    fetch_obit_content (.page text dom) = none := by
  simp [fetch_obit_content, h]

/-- Witness for `challenge_phrase_blocks`: a concrete challenge page that
also carries a valid marker div is still blocked. -/
theorem challenge_phrase_blocks_witness :
    blockedCheck "Checking: Are You Human? please wait" = true ∧
    fetch_obit_content
      (.page "Checking: Are You Human? please wait" c3dom) = none :=
  ⟨by decide, challenge_phrase_blocks "Checking: Are You Human? please wait" c3dom (by decide)⟩

/-- Claim C3: on the spec's concrete two-div markup the extractor emits
exactly the subtitle block then the image block, and the function result
is the newline join of the two. -/
theorem concrete_two_block_fragment :
    extractBlocks c3dom =
      ["<h3>Jane Doe</h3>", "<img src=\"http://x/a.jpg\" alt=\"obit image\" />"] ∧
    fetch_obit_content (.page c3markup c3dom) =
      some ("<h3>Jane Doe</h3>" ++ "\n" ++ "<img src=\"http://x/a.jpg\" alt=\"obit image\" />") := by
  exact ⟨by decide, by decide⟩

/-- Claim C4 (code evaluation at the failing input): the rewriter stores
the literal text `<![CDATA[\n...\n]]>` in the description element, but
ElementTree escapes `&`, `<` and `>` in text content on `tree.write`, so
the serialized output re-escapes the embedded markup and contains no true
CDATA section — contradicting the claim that the markup is not
re-escaped in the serialized output. -/
theorem cdata_reescaped_on_write :
    (updateDescription lastItem "<h3>Jane</h3>").description =
      some (some ("<![CDATA[\n" ++ "<h3>Jane</h3>" ++ "\n]]>")) ∧
    serializedDescText (updateDescription lastItem "<h3>Jane</h3>") =
      some (some ("&lt;![CDATA[\n" ++ "&lt;h3&gt;Jane&lt;/h3&gt;" ++ "\n]]&gt;")) ∧
    serializedDescText (updateDescription lastItem "<h3>Jane</h3>") ≠
      some (some (cdataText "<h3>Jane</h3>")) := by
  exact ⟨by decide, by decide, by decide⟩

/-- Counterexample to claim C5: on a one-item feed whose single item is
fetched successfully, the loop performs one `time.sleep` even though the
item is the last one and the run was not halted — the claim predicts no
delay after the final item. -/
theorem sleep_after_final_item :
    processItems emptyPageFetch [lastItem] =
      .ok ⟨[updateDescription lastItem ""], ["http://a"], 1, false⟩ ∧
    (processItems emptyPageFetch [lastItem]).toOption.map LoopResult.sleeps ≠ some 0 := by
  exact ⟨rfl, by decide⟩

/-- Claim C5 as amended: the delay is performed exactly once after every
item that was fetched and not blocked (equivalently, after every item
whose description was updated), the final item included; so the sleep
count equals the fetch count minus one when the run halted on a block. -/
theorem sleeps_count_fetched (fetch : String → FetchResult)
    (items : List FeedItem) (r : LoopResult)
    (h : processItems fetch items = .ok r) :
    r.sleeps + (if r.halted then 1 else 0) = r.fetched.length := by
  induction items generalizing r with
  | nil =>
    simp only [processItems, Except.ok.injEq] at h
    subst h
    simp
  | cons a rest ih =>
    simp only [processItems] at h
    cases hl : a.link with
    | none =>
      rw [hl] at h
      cases hp : processItems fetch rest with
      | error e => rw [hp] at h; cases h
      | ok r' =>
        rw [hp] at h
        cases h
        simpa using ih r' hp
    | some lt =>
      cases lt with
      | none => rw [hl] at h; cases h
      | some rawLink =>
        simp only [hl] at h
        by_cases ht : titleRaises a.title = true
        · rw [if_pos ht] at h; cases h
        · rw [if_neg ht] at h
          cases hf : fetch_obit_content (fetch (pyStrip rawLink)) with
          | none =>
            rw [hf] at h
            cases h
            simp
          | some obitHtml =>
            rw [hf] at h
            cases hp : processItems fetch rest with
            | error e => rw [hp] at h; cases h
            | ok r' =>
              rw [hp] at h
              cases h
              have := ih r' hp
              simp only [List.length_cons]
              omega

/-- Witness for `sleeps_count_fetched`: the one-item run above slept once
and fetched once without halting. -/
theorem sleeps_count_fetched_witness :
    (processItems emptyPageFetch [lastItem] =
      .ok ⟨[updateDescription lastItem ""], ["http://a"], 1, false⟩) ∧
    (1 : Nat) + (if false then 1 else 0) = (["http://a"] : List String).length :=
  ⟨rfl,
   sleeps_count_fetched emptyPageFetch [lastItem]
     ⟨[updateDescription lastItem ""], ["http://a"], 1, false⟩ rfl⟩

/-- A feed item with a padded link, a title and a pre-existing
description, used by witnesses. -/
def failItem : FeedItem :=
  { link := some (some " http://f "), title := some (some "T"),
    description := some (some "old"), extra := [("guid", "g")] }

/-- Claim C6: a fetch failure is treated as empty content — the
extractor returns `some ""`, which is exactly the serialization of an
empty fragment, and the loop applies the ordinary description update to
the item and continues with the rest (an error in the rest still
propagates unchanged, as in the source). -/
theorem fetch_failure_treated_as_empty (fetch : String → FetchResult)
    (item : FeedItem) (rest : List FeedItem) (s : String)
    (hlink : item.link = some (some s))
    (htitle : titleRaises item.title = false)
    (hfail : fetch (pyStrip s) = .failed) :
    fetch_obit_content .failed = some "" ∧
    fetch_obit_content .failed = some (String.intercalate "\n" []) ∧
    processItems fetch (item :: rest) =
      (processItems fetch rest).map
        (fun r => ⟨updateDescription item "" :: r.items,
                   pyStrip s :: r.fetched, r.sleeps + 1, r.halted⟩) := by
  refine ⟨rfl, rfl, ?_⟩
  simp only [processItems, hlink, htitle, hfail, fetch_obit_content,
    Bool.false_eq_true, if_false]
  cases processItems fetch rest <;> rfl

/-- Witness for `fetch_failure_treated_as_empty`: a concrete item whose
fetch fails is updated with the empty CDATA payload and the empty rest is
processed normally. -/
theorem fetch_failure_treated_as_empty_witness :
    failItem.link = some (some " http://f ") ∧
    titleRaises failItem.title = false ∧
    (fun _ => FetchResult.failed) (pyStrip " http://f ") = FetchResult.failed ∧
    (fetch_obit_content .failed = some "" ∧
     fetch_obit_content .failed = some (String.intercalate "\n" []) ∧
     processItems (fun _ => FetchResult.failed) (failItem :: []) =
       (processItems (fun _ => FetchResult.failed) []).map
         (fun r => ⟨updateDescription failItem "" :: r.items,
                    pyStrip " http://f " :: r.fetched, r.sleeps + 1, r.halted⟩)) :=
  ⟨rfl, rfl, rfl,
   fetch_failure_treated_as_empty (fun _ => FetchResult.failed) failItem []
     " http://f " rfl rfl rfl⟩

/-- Claim C7: each of the three precondition failures (missing input
file, unparsable document, missing channel element) makes the run return
before the loop with its own distinct reported cause, with no output
written; the outcome does not depend on the fetch oracle, so no network
activity occurs. -/
theorem preconditions_abort_run (fetch fetch' : String → FetchResult) :
    scrape_rss_feed fetch .fileMissing = .errNoFile ∧
    scrape_rss_feed fetch .malformed = .errParse ∧
    scrape_rss_feed fetch (.doc none) = .errNoChannel ∧
    (scrape_rss_feed fetch .fileMissing).isWritten = false ∧
    (scrape_rss_feed fetch .malformed).isWritten = false ∧
    (scrape_rss_feed fetch (.doc none)).isWritten = false ∧
    scrape_rss_feed fetch .fileMissing = scrape_rss_feed fetch' .fileMissing ∧
    scrape_rss_feed fetch .malformed = scrape_rss_feed fetch' .malformed ∧
    scrape_rss_feed fetch (.doc none) = scrape_rss_feed fetch' (.doc none) ∧
    ScrapeOutcome.errNoFile ≠ ScrapeOutcome.errParse ∧
    ScrapeOutcome.errNoFile ≠ ScrapeOutcome.errNoChannel ∧
    ScrapeOutcome.errParse ≠ ScrapeOutcome.errNoChannel :=
  ⟨rfl, rfl, rfl, rfl, rfl, rfl, rfl, rfl, rfl,
   by decide, by decide, by decide⟩

/-- Helper: a `filterMap` over a list all of whose elements map to
`none` is empty. -/
theorem filterMap_eq_nil_of_forall_none {α β : Type} (f : α → Option β)
    (l : List α) (h : ∀ a ∈ l, f a = none) : l.filterMap f = [] := by
  induction l with
  | nil => rfl
  | cons a t ih =>
    rw [List.filterMap_cons, h a (List.mem_cons_self a t)]
    exact ih (fun b hb => h b (List.mem_cons_of_mem a hb))

/-- Claim C9: the extractor is a total function of its input (so it never
raises, malformed markup included), and a DOM none of whose marker divs
carries a recognized marker value — in particular a DOM with no marker
divs at all — yields the empty fragment, hence `some ""` on an
unblocked page rather than an error. -/
theorem unrecognized_markers_empty_fragment (text : String) (dom : List HtmlNode)
    (h : ∀ n ∈ findAllList isMarkerDiv dom,
      ((n.getAttr "data-blog-component").getD "unknown") ≠ "subtitle" ∧
      ((n.getAttr "data-blog-component").getD "unknown") ≠ "image" ∧
      ((n.getAttr "data-blog-component").getD "unknown") ≠ "text")
    (hb : blockedCheck text = false) :
    extractBlocks dom = [] ∧
    fetch_obit_content (.page text dom) = some "" := by
  have he : extractBlocks dom = [] := by
    apply filterMap_eq_nil_of_forall_none
    intro n hn
    obtain ⟨h1, h2, h3⟩ := h n hn
    simp only [blockOf, if_neg h1, if_neg h2, if_neg h3]
  refine ⟨he, ?_⟩
  simp only [fetch_obit_content, hb, Bool.false_eq_true, if_false, he]
  rfl

/-- Witness for `unrecognized_markers_empty_fragment`: a DOM whose only
marker div carries the unrecognized value "video" (plus a marker-free
div) yields the empty fragment. -/
theorem unrecognized_markers_empty_fragment_witness :
    (∀ n ∈ findAllList isMarkerDiv
        [ HtmlNode.elem "div" [("data-blog-component", "video")] [],
          HtmlNode.elem "div" [] [ HtmlNode.text "plain" ] ],
      ((n.getAttr "data-blog-component").getD "unknown") ≠ "subtitle" ∧
      ((n.getAttr "data-blog-component").getD "unknown") ≠ "image" ∧
      ((n.getAttr "data-blog-component").getD "unknown") ≠ "text") ∧
    blockedCheck "<html><body>nothing here</body></html>" = false ∧
    (extractBlocks
       [ HtmlNode.elem "div" [("data-blog-component", "video")] [],
         HtmlNode.elem "div" [] [ HtmlNode.text "plain" ] ] = [] ∧
     fetch_obit_content (.page "<html><body>nothing here</body></html>"
       [ HtmlNode.elem "div" [("data-blog-component", "video")] [],
         HtmlNode.elem "div" [] [ HtmlNode.text "plain" ] ]) = some "") :=
  ⟨by decide, by decide,
   unrecognized_markers_empty_fragment "<html><body>nothing here</body></html>"
     [ HtmlNode.elem "div" [("data-blog-component", "video")] [],
       HtmlNode.elem "div" [] [ HtmlNode.text "plain" ] ]
     (by decide) (by decide)⟩

/-! ## Frame preservation (claim C8) -/

/-- Relation between an input item and the corresponding output item:
every field other than the description is unchanged, the description is
either unchanged or replaced by one CDATA-wrapped update, and an item
with no link element is wholly unchanged. -/
def frameRel (a b : FeedItem) : Prop :=
  b.link = a.link ∧ b.title = a.title ∧ b.extra = a.extra ∧
  (b.description = a.description ∨ ∃ s, b = updateDescription a s) ∧
  (a.link = none → b = a)

/-- Every item is frame-related to itself. -/
theorem frameRel_refl (a : FeedItem) : frameRel a a :=
  ⟨rfl, rfl, rfl, Or.inl rfl, fun _ => rfl⟩

/-- Helper for claim C8: the loop relates input and output item lists
positionally by `frameRel`, and every fetched URL is the stripped link of
some input item that has a link element with text. -/
theorem processItems_frame (fetch : String → FetchResult)
    (items : List FeedItem) (r : LoopResult)
    (h : processItems fetch items = .ok r) :
    List.Forall₂ frameRel items r.items ∧
    ∀ u ∈ r.fetched, ∃ it ∈ items, ∃ s, it.link = some (some s) ∧ u = pyStrip s := by
  induction items generalizing r with
  | nil =>
    simp only [processItems, Except.ok.injEq] at h
    subst h
    exact ⟨List.Forall₂.nil, by simp⟩
  | cons a rest ih =>
    simp only [processItems] at h
    cases hl : a.link with
    | none =>
      simp only [hl] at h
      cases hp : processItems fetch rest with
      | error e => rw [hp] at h; cases h
      | ok r' =>
        rw [hp] at h
        cases h
        obtain ⟨ih1, ih2⟩ := ih r' hp
        refine ⟨List.Forall₂.cons (frameRel_refl a) ih1, ?_⟩
        intro u hu
        obtain ⟨it, hit, s, h1, h2⟩ := ih2 u hu
        exact ⟨it, List.mem_cons_of_mem a hit, s, h1, h2⟩
    | some lt =>
      cases lt with
      | none => simp only [hl] at h; cases h
      | some rawLink =>
        simp only [hl] at h
        by_cases ht : titleRaises a.title = true
        · rw [if_pos ht] at h; cases h
        · rw [if_neg ht] at h
          cases hf : fetch_obit_content (fetch (pyStrip rawLink)) with
          | none =>
            rw [hf] at h
            cases h
            refine ⟨List.forall₂_same.mpr (fun x _ => frameRel_refl x), ?_⟩
            intro u hu
            rw [List.mem_singleton] at hu
            subst hu
            exact ⟨a, List.mem_cons_self a rest, rawLink, hl, rfl⟩
          | some obitHtml =>
            rw [hf] at h
            cases hp : processItems fetch rest with
            | error e => rw [hp] at h; cases h
            | ok r' =>
              rw [hp] at h
              cases h
              obtain ⟨ih1, ih2⟩ := ih r' hp
              refine ⟨List.Forall₂.cons ?_ ih1, ?_⟩
              · refine ⟨rfl, rfl, rfl, Or.inr ⟨obitHtml, rfl⟩, fun hn => ?_⟩
                rw [hl] at hn
                cases hn
              · intro u hu
                cases List.mem_cons.mp hu with
                | inl he =>
                  subst he
                  exact ⟨a, List.mem_cons_self a rest, rawLink, hl, rfl⟩
                | inr htl =>
                  obtain ⟨it, hit, s, h1, h2⟩ := ih2 u htl
                  exact ⟨it, List.mem_cons_of_mem a hit, s, h1, h2⟩

/-- Claim C8: a written run changes only descriptions — the feed-level
metadata is unchanged, items correspond positionally (so ordering and
count are preserved) with all non-description fields equal, an item with
no link element is returned wholly unchanged, and every URL fetched comes
from an item that has a link element with text (so a linkless item causes
no network call). -/
theorem only_descriptions_change (fetch : String → FetchResult) (ch : Channel)
    (out : Channel) (us : List String) (ns : Nat) (hal : Bool)
    (h : scrape_rss_feed fetch (.doc (some ch)) = .written out us ns hal) :
    out.meta = ch.meta ∧
    List.Forall₂ frameRel ch.items out.items ∧
    ∀ u ∈ us, ∃ it ∈ ch.items, ∃ s, it.link = some (some s) ∧ u = pyStrip s := by
  simp only [scrape_rss_feed] at h
  cases hp : processItems fetch ch.items with
  | error e => rw [hp] at h; cases h
  | ok r =>
    rw [hp] at h
    cases h
    obtain ⟨h1, h2⟩ := processItems_frame fetch ch.items r hp
    exact ⟨rfl, h1, h2⟩

/-- A feed item with no link element, a title, a pre-existing description
and an extra child. -/
def linklessItem : FeedItem :=
  { link := none, title := some (some "L"), description := some (some "keep"),
    extra := [("guid", "g2")] }

/-- Witness for `only_descriptions_change`: a run over a linkless item
followed by an item whose fetch fails leaves the first item wholly
unchanged, fetches only the second item's stripped link, and preserves
metadata. -/
theorem only_descriptions_change_witness :
    scrape_rss_feed (fun _ => FetchResult.failed)
      (.doc (some ⟨[("title", "T")], [linklessItem, failItem]⟩)) =
      .written ⟨[("title", "T")], [linklessItem, updateDescription failItem ""]⟩
        ["http://f"] 1 false ∧
    ((⟨[("title", "T")], [linklessItem, updateDescription failItem ""]⟩ : Channel).meta
        = (⟨[("title", "T")], [linklessItem, failItem]⟩ : Channel).meta ∧
     List.Forall₂ frameRel
       (⟨[("title", "T")], [linklessItem, failItem]⟩ : Channel).items
       (⟨[("title", "T")], [linklessItem, updateDescription failItem ""]⟩ : Channel).items ∧
     ∀ u ∈ (["http://f"] : List String),
       ∃ it ∈ (⟨[("title", "T")], [linklessItem, failItem]⟩ : Channel).items,
         ∃ s, it.link = some (some s) ∧ u = pyStrip s) :=
  ⟨rfl,
   only_descriptions_change (fun _ => FetchResult.failed)
     ⟨[("title", "T")], [linklessItem, failItem]⟩
     ⟨[("title", "T")], [linklessItem, updateDescription failItem ""]⟩
     ["http://f"] 1 false rfl⟩

/-! ## Halt on the anti-bot challenge (claim C1) -/

/-- The item is processed without raising and its fetch is not the
challenge: it has a link element with text, its title does not raise, and
the extractor returns content. -/
def fetchedOk (fetch : String → FetchResult) (it : FeedItem) : Prop :=
  ∃ s, it.link = some (some s) ∧ titleRaises it.title = false ∧
    (fetch_obit_content (fetch (pyStrip s))).isSome = true

/-- The item is processed without raising and its fetch hits the
challenge: the extractor returns the blocked signal. -/
def fetchedBlocked (fetch : String → FetchResult) (it : FeedItem) : Prop :=
  ∃ s, it.link = some (some s) ∧ titleRaises it.title = false ∧
    fetch_obit_content (fetch (pyStrip s)) = none

/-- The output item is the input item with its description set to the
CDATA wrap of the content extracted from its fetched link. -/
def updRel (fetch : String → FetchResult) (a b : FeedItem) : Prop :=
  ∃ s obitHtml, a.link = some (some s) ∧
    fetch_obit_content (fetch (pyStrip s)) = some obitHtml ∧
    b = updateDescription a obitHtml

/-- Helper for claim C1: when every item before position K succeeds and
item K is blocked, the loop updates exactly the items before K, leaves
item K and everything after it untouched, fetches exactly K URLs, sleeps
K-1 times, and reports the halt. -/
theorem processItems_blocked_at (fetch : String → FetchResult)
    (pre : List FeedItem) (itemK : FeedItem) (post : List FeedItem)
    (hpre : ∀ it ∈ pre, fetchedOk fetch it)
    (hK : fetchedBlocked fetch itemK) :
    ∃ pre' urls,
      processItems fetch (pre ++ itemK :: post) =
        .ok ⟨pre' ++ itemK :: post, urls, pre.length, true⟩ ∧
      List.Forall₂ (updRel fetch) pre pre' ∧
      urls.length = pre.length + 1 := by
  induction pre with
  | nil =>
    obtain ⟨s, hl, ht, hb⟩ := hK
    refine ⟨[], [pyStrip s], ?_, List.Forall₂.nil, rfl⟩
    simp only [List.nil_append, List.length_nil, processItems, hl, ht,
      Bool.false_eq_true, if_false, hb]
  | cons a pre ih =>
    obtain ⟨s, hl, ht, hsome⟩ := hpre a (List.mem_cons_self a pre)
    obtain ⟨obitHtml, hob⟩ := Option.isSome_iff_exists.mp hsome
    obtain ⟨pre', urls, hproc, hrel, hlen⟩ :=
      ih (fun it hit => hpre it (List.mem_cons_of_mem a hit))
    refine ⟨updateDescription a obitHtml :: pre', pyStrip s :: urls, ?_, ?_, ?_⟩
    · simp only [List.cons_append, List.length_cons, processItems, hl, ht,
        Bool.false_eq_true, if_false, hob, List.append_eq, hproc]
    · exact List.Forall₂.cons ⟨s, obitHtml, hl, hob, rfl⟩ hrel
    · simp [hlen]

/-- Claim C1: a feed whose items before position K all succeed and whose
item K hits the challenge ends as a written run (no exception) whose
output updates exactly the items before K, keeps item K and all later
items byte-identical to the input, performs exactly K fetches (so no item
after K is visited), and reports the halt. -/
theorem blocked_halts_and_writes_partial (fetch : String → FetchResult)
    (meta : List (String × String)) (pre : List FeedItem) (itemK : FeedItem)
    (post : List FeedItem)
    (hpre : ∀ it ∈ pre, fetchedOk fetch it)
    (hK : fetchedBlocked fetch itemK) :
    ∃ pre' urls,
      scrape_rss_feed fetch (.doc (some ⟨meta, pre ++ itemK :: post⟩)) =
        .written ⟨meta, pre' ++ itemK :: post⟩ urls pre.length true ∧
      List.Forall₂ (updRel fetch) pre pre' ∧
      urls.length = pre.length + 1 := by
  obtain ⟨pre', urls, hproc, hrel, hlen⟩ :=
    processItems_blocked_at fetch pre itemK post hpre hK
  exact ⟨pre', urls, by simp only [scrape_rss_feed, hproc], hrel, hlen⟩

/-- A successful page: no challenge phrase, no marker divs. -/
def okPage : FetchResult := .page "<html>fine</html>" []

/-- A challenge page: the phrase appears in the first 500 characters. -/
def challengePage : FetchResult := .page "Please verify: are you human? thanks" []

/-- A fetch oracle that serves the good page at one URL and the challenge
everywhere else. -/
def cexFetch : String → FetchResult := fun url =>
  if url = "http://ok" then okPage else challengePage

/-- Item whose padded link resolves to the good page. -/
def p1 : FeedItem :=
  { link := some (some " http://ok "), title := none, description := none, extra := [] }

/-- Item whose link hits the challenge. -/
def kItem : FeedItem :=
  { link := some (some "http://blocked"), title := some (some "K"),
    description := none, extra := [] }

/-- Item after the blocked one; never visited. -/
def q1 : FeedItem :=
  { link := some (some "http://never"), title := none,
    description := some (some "untouched"), extra := [("guid", "q")] }

/-- Witness for `blocked_halts_and_writes_partial`: a three-item feed
whose second item is blocked. -/
theorem blocked_halts_and_writes_partial_witness :
    (∀ it ∈ [p1], fetchedOk cexFetch it) ∧
    fetchedBlocked cexFetch kItem ∧
    ∃ pre' urls,
      scrape_rss_feed cexFetch (.doc (some ⟨[("title", "T")], [p1] ++ kItem :: [q1]⟩)) =
        .written ⟨[("title", "T")], pre' ++ kItem :: [q1]⟩ urls
          ([p1] : List FeedItem).length true ∧
      List.Forall₂ (updRel cexFetch) [p1] pre' ∧
      urls.length = ([p1] : List FeedItem).length + 1 := by
  have hpre : ∀ it ∈ [p1], fetchedOk cexFetch it := by
    intro it hit
    rw [List.mem_singleton] at hit
    subst hit
    exact ⟨" http://ok ", rfl, rfl, by decide⟩
  have hK : fetchedBlocked cexFetch kItem :=
    ⟨"http://blocked", rfl, rfl, by decide⟩
  exact ⟨hpre, hK,
    blocked_halts_and_writes_partial cexFetch [("title", "T")] [p1] kItem [q1] hpre hK⟩

/-! ## Empty link element raises (claim C10) -/

/-- Helper for claim C10: once the loop reaches an item whose link
element has `None` text, it raises, whatever comes after. -/
theorem processItems_error_at_empty_link (fetch : String → FetchResult)
    (pre : List FeedItem) (item : FeedItem) (post : List FeedItem)
    (hpre : ∀ it ∈ pre, fetchedOk fetch it)
    (h : item.link = some none) :
    processItems fetch (pre ++ item :: post) = .error .attributeError := by
  induction pre with
  | nil => simp only [List.nil_append, processItems, h]
  | cons a pre ih =>
    obtain ⟨s, hl, ht, hsome⟩ := hpre a (List.mem_cons_self a pre)
    obtain ⟨obitHtml, hob⟩ := Option.isSome_iff_exists.mp hsome
    have hrec := ih (fun it hit => hpre it (List.mem_cons_of_mem a hit))
    simp only [List.cons_append, processItems, hl, ht, Bool.false_eq_true,
      if_false, hob, List.append_eq, hrec]

/-- Claim C10: a feed containing an item whose `link` element is present
with no text (`<link></link>`, so `link_elem.text` is `None`) makes
`link_elem.text.strip()` raise an `AttributeError` when the loop reaches
that item (here: after any prefix of successfully processed items); the
item is neither skipped nor fetched, the exception escapes the function,
and no output file is written. -/
theorem empty_link_element_raises (fetch : String → FetchResult)
    (meta : List (String × String)) (pre : List FeedItem) (item : FeedItem)
    (post : List FeedItem)
    (hpre : ∀ it ∈ pre, fetchedOk fetch it)
    (h : item.link = some none) :
    processItems fetch (pre ++ item :: post) = .error .attributeError ∧
    scrape_rss_feed fetch (.doc (some ⟨meta, pre ++ item :: post⟩)) =
      .raised .attributeError ∧
    (scrape_rss_feed fetch (.doc (some ⟨meta, pre ++ item :: post⟩))).isWritten = false := by
  have h1 := processItems_error_at_empty_link fetch pre item post hpre h
  refine ⟨h1, ?_, ?_⟩ <;> simp only [scrape_rss_feed, h1, ScrapeOutcome.isWritten]

/-- Witness for `empty_link_element_raises`: a feed whose first item is
fetched successfully and whose second item has an empty link element
raises and writes nothing. -/
theorem empty_link_element_raises_witness :
    (∀ it ∈ [p1], fetchedOk cexFetch it) ∧
    (⟨some none, none, none, []⟩ : FeedItem).link = some none ∧
    (processItems cexFetch ([p1] ++ (⟨some none, none, none, []⟩ : FeedItem) :: []) =
       .error .attributeError ∧
     scrape_rss_feed cexFetch
       (.doc (some ⟨[("title", "T")], [p1] ++ (⟨some none, none, none, []⟩ : FeedItem) :: []⟩)) =
       .raised .attributeError ∧
     (scrape_rss_feed cexFetch
       (.doc (some ⟨[("title", "T")], [p1] ++ (⟨some none, none, none, []⟩ : FeedItem) :: []⟩))).isWritten = false) := by
  have hpre : ∀ it ∈ [p1], fetchedOk cexFetch it := by
    intro it hit
    rw [List.mem_singleton] at hit
    subst hit
    exact ⟨" http://ok ", rfl, rfl, by decide⟩
  exact ⟨hpre, rfl,
    empty_link_element_raises cexFetch [("title", "T")] [p1]
      ⟨some none, none, none, []⟩ [] hpre rfl⟩

end ObitScraper
